import Mathlib

/- Verification of the Zenopay payment-gateway core: control numbers,
   payment status reconciliation and service delivery.  The definitions
   below are shallow embeddings of the JavaScript source files
   (models/ControlNumber, models/Payment, models/Service, the webhook and
   control-number controllers and controlNumberService).  Times are
   modelled as Nat milliseconds, mongo documents as Lean structures and
   the persistent store as a list of documents. -/

namespace Zenopay

/- ===== Payment model (src/models/Payment.js, second half of User.js) ===== -/

structure HistoryEntry where
  status : String
  message : String
  source : String
  timestamp : Nat
deriving DecidableEq

structure Payment where
  orderId : String
  amount : Nat
  currency : String
  status : String
  paymentStatus : String
  statusHistory : List HistoryEntry
  externalReference : Option String
  externalTransactionId : Option String
  completedAt : Option Nat
  failedAt : Option Nat
deriving DecidableEq

/-- Embeds the zenopayStatusMap literal inside paymentSchema.methods.updateStatus
    (lines 357-364): internal statuses map to the upper-case Zenopay vocabulary,
    everything else to PENDING. -/
def zenopayStatusMap (s : String) : String :=
  if s = "pending" then "PENDING"
  else if s = "completed" then "COMPLETED"
  else if s = "failed" then "FAILED"
  else if s = "cancelled" then "CANCELLED"
  else "PENDING"

/-- Embeds paymentSchema.methods.updateStatus (Payment model, lines 342-373).
    The only guard in the source is oldStatus !== newStatus; there is no check
    that the current status is terminal. -/
def updateStatus (p : Payment) (newStatus message source : String) (now : Nat) : Payment :=
  if p.status ≠ newStatus then
    { p with
      status := newStatus,
      statusHistory := p.statusHistory ++
        [{ status := newStatus, message := message, source := source, timestamp := now }],
      paymentStatus := zenopayStatusMap newStatus,
      completedAt := if newStatus = "completed" then some now else p.completedAt,
      failedAt := if newStatus = "failed" then some now else p.failedAt }
  else p

/-- The enum list of the status path of paymentSchema (lines 284-289). -/
def paymentStatusEnumVals : List String := ["pending", "completed", "failed", "cancelled"]

/-- The enum list of the statusHistory.status path of paymentSchema (lines 291-295). -/
def historyStatusEnumVals : List String := ["pending", "completed", "failed", "cancelled"]

/-- Mongoose enum validation of a Payment document: the denormalized status and
    every history entry status must belong to the schema enums, otherwise save
    is rejected. -/
def paymentSchemaAllows (p : Payment) : Bool :=
  paymentStatusEnumVals.contains p.status &&
  p.statusHistory.all (fun h => historyStatusEnumVals.contains h.status)

/- ===== Service model (src/models/Service.js) ===== -/

structure Service where
  serviceId : String
  paymentId : Option String
  status : String
  duration : Option Nat
  accessToken : Option String
  accessGrantedAt : Option Nat
  expiresAt : Option Nat
  lastAccessedAt : Option Nat
  accessCount : Nat
  deliveredAt : Option Nat
  deliveryAttempts : Nat
  lastDeliveryAttempt : Option Nat
  deliveryStatus : String
deriving DecidableEq

/-- Embeds ServiceSchema.methods.activate (Service.js lines 139-149); the
    serviceData.duration truthiness test of JS means a zero duration sets no
    expiry. -/
def activate (s : Service) (now : Nat) : Service :=
  let s1 := { s with
    status := "active",
    accessGrantedAt := some now,
    deliveredAt := some now,
    deliveryStatus := "completed" }
  match s1.duration with
  | some d => if d = 0 then s1 else { s1 with expiresAt := some (now + d * 86400000) }
  | none => s1

/-- Embeds ServiceSchema.methods.isAccessible (Service.js lines 152-156). -/
def isAccessible (s : Service) (now : Nat) : Bool :=
  if s.status ≠ "active" then false
  else match s.expiresAt with
    | some e => if e < now then false else true
    | none => true

/-- Embeds ServiceSchema.methods.recordAccess (Service.js lines 159-162). -/
def recordAccess (s : Service) (now : Nat) : Service :=
  { s with lastAccessedAt := some now, accessCount := s.accessCount + 1 }

/- ===== Webhook controller (src/routes/bank.js, WebhookController) ===== -/

/-- Embeds the statusMap literal of WebhookController.handleZenopayWebhook
    (bank.js lines 562-570) together with the default: an unmapped provider
    status falls back to pending. -/
def webhookStatusMap (s : String) : String :=
  if s = "COMPLETED" then "completed"
  else if s = "PENDING" then "pending"
  else if s = "PROCESSING" then "processing"
  else if s = "FAILED" then "failed"
  else if s = "CANCELLED" then "cancelled"
  else "pending"

/-- The keys of the webhook statusMap literal. -/
def webhookStatusKeys : List String :=
  ["COMPLETED", "PENDING", "PROCESSING", "FAILED", "CANCELLED"]

/-- Embeds BankPaymentService.mapStatus (controlNumberService.js file, lines
    746-762): the per-provider lookup table with default pending. -/
def mapStatus (s : String) : String :=
  if s = "INITIATED" then "pending"
  else if s = "PENDING" then "pending"
  else if s = "PROCESSING" then "processing"
  else if s = "IN_PROGRESS" then "processing"
  else if s = "COMPLETED" then "completed"
  else if s = "SUCCESSFUL" then "completed"
  else if s = "SETTLED" then "completed"
  else if s = "FAILED" then "failed"
  else if s = "REJECTED" then "failed"
  else if s = "CANCELLED" then "cancelled"
  else if s = "RETURNED" then "failed"
  else "pending"

/-- The keys of the mapStatus table. -/
def mapStatusKeys : List String :=
  ["INITIATED", "PENDING", "PROCESSING", "IN_PROGRESS", "COMPLETED", "SUCCESSFUL",
   "SETTLED", "FAILED", "REJECTED", "CANCELLED", "RETURNED"]

/-- The canonical internal status vocabulary of the spec. -/
def canonicalStatuses : List String :=
  ["pending", "processing", "completed", "failed", "cancelled"]

/-- Embeds WebhookController.deliverSingleService (bank.js lines 634-661) in
    the non-throwing path: attempt counters, activation, delivery status and
    the access token assigned when absent.  The generated token is abstracted
    as the argument tok. -/
def deliverSingleService (s : Service) (tok : String) (now : Nat) : Service :=
  let s1 := { s with
    deliveryAttempts := s.deliveryAttempts + 1,
    lastDeliveryAttempt := some now }
  let s2 := activate s1 now
  let s3 := { s2 with deliveryStatus := "completed" }
  match s3.accessToken with
  | none => { s3 with accessToken := some tok }
  | some _ => s3

/-- Embeds WebhookController.deliverServices (bank.js lines 608-629): only
    services linked to the payment and still pending are delivered; every
    other document is untouched. -/
def deliverServices (services : List Service) (dbId : String) (tok : String) (now : Nat) :
    List Service :=
  services.map (fun s =>
    if s.paymentId = some dbId ∧ s.status = "pending" then deliverSingleService s tok now else s)

structure WebhookEvent where
  paymentStatus : String
  reference : Option String
  transactionId : Option String
deriving DecidableEq

structure WebhookState where
  payment : Payment
  paymentDbId : String
  services : List Service
deriving DecidableEq

/-- Embeds WebhookController.handleZenopayWebhook (bank.js lines 536-603) for
    an existing payment: map the provider status, and when it differs from the
    stored status apply updateStatus, record the external references and, when
    the new status is completed, deliver the linked pending services. -/
def handleZenopayWebhook (st : WebhookState) (ev : WebhookEvent) (tok : String) (now : Nat) :
    WebhookState :=
  let newStatus := webhookStatusMap ev.paymentStatus
  if st.payment.status ≠ newStatus then
    let p1 := updateStatus st.payment newStatus ("Webhook: " ++ ev.paymentStatus) "webhook" now
    let p2 := { p1 with
      externalTransactionId := ev.transactionId,
      externalReference := ev.reference }
    let svcs := if newStatus = "completed"
      then deliverServices st.services st.paymentDbId tok now
      else st.services
    { st with payment := p2, services := svcs }
  else st

/- ===== Service access controller (src/controllers/serviceController.js) ===== -/

inductive AccessResult where
  | notFound
  | paymentRequired
  | granted
deriving DecidableEq

/-- Embeds ServiceController.checkServiceAccess (serviceController.js lines
    60-117).  The populated payment is abstracted to its status.  When the
    payment is completed the source activates the service whenever it is not
    already active, then records the access and grants it; the isAccessible
    predicate is never consulted. -/
def checkServiceAccess (svc : Option Service) (payStatus : Option String) (now : Nat) :
    AccessResult × Option Service :=
  match svc with
  | none => (AccessResult.notFound, none)
  | some s =>
    if payStatus ≠ some "completed" then (AccessResult.paymentRequired, some s)
    else
      let s1 := if s.status ≠ "active" then activate s now else s
      let s2 := recordAccess s1 now
      (AccessResult.granted, some s2)

/- ===== ControlNumber model (src/unnamed/part_001) ===== -/

structure UsedBy where
  name : Option String
  phone : Option String
  network : Option String
deriving DecidableEq

structure ControlNumber where
  controlNumber : String
  amount : Nat
  currency : String
  status : String
  paymentReference : Option String
  usedAt : Option Nat
  usedBy : UsedBy
  expiresAt : Nat
  validUntil : Nat
  isReusable : Bool
  maxUses : Nat
  currentUses : Nat
deriving DecidableEq

/-- Embeds the isExpired virtual (part_001 lines 141-143): now strictly past
    expiresAt. -/
def isExpired (cn : ControlNumber) (now : Nat) : Bool :=
  decide (cn.expiresAt < now)

/-- Embeds the isValid virtual (part_001 lines 146-150). -/
def isValid (cn : ControlNumber) (now : Nat) : Bool :=
  decide (cn.status = "active") && decide (now ≤ cn.validUntil) &&
  decide (cn.currentUses < cn.maxUses)

/-- Embeds controlNumberSchema.methods.canBeUsed (part_001 lines 189-191). -/
def canBeUsed (cn : ControlNumber) (now : Nat) : Bool :=
  isValid cn now && !(isExpired cn now)

/-- The conditional per-field copy of usedBy inside markAsUsed: a field is
    overwritten only when the incoming info carries it. -/
def applyUsedBy (old info : UsedBy) : UsedBy :=
  { name := if info.name.isSome then info.name else old.name,
    phone := if info.phone.isSome then info.phone else old.phone,
    network := if info.network.isSome then info.network else old.network }

/-- Embeds controlNumberSchema.methods.markAsUsed (part_001 lines 168-186).
    The source sets status to used unconditionally before its reusability
    check, so the final conditional assignment never restores active. -/
def markAsUsed (cn : ControlNumber) (payRef : String) (info : UsedBy) (now : Nat) :
    Except String ControlNumber :=
  if cn.status ≠ "active" then Except.error "Control number is not active"
  else
    let cn1 := { cn with
      status := "used",
      usedAt := some now,
      paymentReference := some payRef,
      currentUses := cn.currentUses + 1,
      usedBy := applyUsedBy cn.usedBy info }
    if ¬ cn1.isReusable ∨ cn1.maxUses ≤ cn1.currentUses then
      Except.ok { cn1 with status := "used" }
    else Except.ok cn1

/- ===== Control number service (src/services/controlNumberService.js) ===== -/

/-- Models String.prototype.toUpperCase as applied to control-number codes:
    basic latin letters are uppercased character by character. -/
def jsToUpper (s : String) : String :=
  String.mk (s.data.map Char.toUpper)

/-- The findOne query shared by validateControlNumber and useControlNumber
    (controlNumberService.js lines 146-149 and 205-208): the code is
    uppercased and the status must be active. -/
def findOneActive (store : List ControlNumber) (code : String) : Option ControlNumber :=
  store.find? (fun cn => decide (cn.controlNumber = jsToUpper code ∧ cn.status = "active"))

inductive ValidationOutcome where
  | invalid (message : String)
  | valid (cn : ControlNumber)
deriving DecidableEq

/-- Embeds ControlNumberService.validateControlNumber (controlNumberService.js
    lines 140-193).  The catch clause turns the missing-code throw into an
    invalid result; there is no expected-amount parameter in this function. -/
def validateControlNumber (store : List ControlNumber) (code : String) (now : Nat) :
    ValidationOutcome :=
  if code = "" then ValidationOutcome.invalid "Control number is required"
  else
    match findOneActive store code with
    | none => ValidationOutcome.invalid "Control number not found or expired"
    | some cn =>
      if isExpired cn now then ValidationOutcome.invalid "Control number has expired"
      else if !(canBeUsed cn now) then ValidationOutcome.invalid "Control number cannot be used"
      else ValidationOutcome.valid cn

/-- Embeds the expected-amount comparison of
    ControlNumberController.validateControlNumber (bank.js lines 190-196):
    the request is rejected exactly when an amount was supplied and differs
    from the stored amount. -/
def controllerAmountMismatch (expected : Option Nat) (cn : ControlNumber) : Bool :=
  match expected with
  | some a => decide (a ≠ cn.amount)
  | none => false

structure UseResult where
  controlNumber : String
  paymentReference : String
  amount : Nat
  currency : String
  status : String
deriving DecidableEq

/-- The effect of cn.save on the keyed store: the document with the same code
    is replaced. -/
def saveToStore (store : List ControlNumber) (cn : ControlNumber) : List ControlNumber :=
  store.map (fun r => if r.controlNumber = cn.controlNumber then cn else r)

/-- Embeds ControlNumberService.useControlNumber (controlNumberService.js
    lines 201-241): find the active document under the uppercased code, check
    canBeUsed, build the payment reference from the RAW input code and the
    current time, mark as used and save. -/
def useControlNumber (store : List ControlNumber) (code : String) (info : UsedBy) (now : Nat) :
    Except String UseResult × List ControlNumber :=
  match findOneActive store code with
  | none => (Except.error "Control number not found or not active", store)
  | some cn =>
    if !(canBeUsed cn now) then (Except.error "Control number cannot be used", store)
    else
      let payRef := "CN_" ++ code ++ "_" ++ toString now
      match markAsUsed cn payRef info now with
      | Except.error e => (Except.error e, store)
      | Except.ok cn2 =>
        (Except.ok { controlNumber := cn2.controlNumber, paymentReference := payRef,
                     amount := cn2.amount, currency := cn2.currency, status := "used" },
         saveToStore store cn2)

/- ===== Control number generation (bank.js, lines 105-120) ===== -/

/-- The retry budget maxAttempts of
    ControlNumberController.generateControlNumber (bank.js line 108). -/
def maxAttempts : Nat := 10

/-- Embeds the do-while generation loop of
    ControlNumberController.generateControlNumber (bank.js lines 110-120).
    Candidate codes come from the stream cand (the source derives them from
    the clock and a random suffix); existsInStore is the collision query.
    Each pass draws a candidate, increments attempts, fails once attempts
    reaches maxAttempts and otherwise exits as soon as the candidate is free.
    The loop provably exits within maxAttempts passes, so running it with
    fuel maxAttempts reproduces the source loop exactly. -/
def genLoop (existsInStore : String → Bool) (cand : Nat → String) :
    Nat → Nat → Option String
  | _, 0 => none
  | attempts, fuel + 1 =>
    let c := cand attempts
    let a := attempts + 1
    if maxAttempts ≤ a then none
    else if existsInStore c then genLoop existsInStore cand a fuel
    else some c

/-- The generation entry point: the loop started with zero attempts. -/
def generateControlNumber (existsInStore : String → Bool) (cand : Nat → String) :
    Option String :=
  genLoop existsInStore cand 0 maxAttempts

/- ===== Interleaved redemption (concurrency model for useControlNumber) ===== -/

instance {α β : Type} [DecidableEq α] [DecidableEq β] : DecidableEq (Except α β) := fun a b =>
  match a, b with
  | Except.ok x, Except.ok y =>
    if h : x = y then isTrue (by rw [h])
    else isFalse (by intro he; cases he; exact h rfl)
  | Except.error x, Except.error y =>
    if h : x = y then isTrue (by rw [h])
    else isFalse (by intro he; cases he; exact h rfl)
  | Except.ok _, Except.error _ => isFalse (by intro he; cases he)
  | Except.error _, Except.ok _ => isFalse (by intro he; cases he)

/-- The local state of one redeem call: before the findOne, holding the
    snapshot the findOne returned, or finished with a result.  The split into
    a read step and a write step follows the two awaited store operations of
    ControlNumberService.useControlNumber: the findOne and the save. -/
inductive RedeemPhase where
  | start
  | readDone (snapshot : ControlNumber)
  | finished (result : Except String UseResult)
deriving DecidableEq

/-- One scheduler step of a redeem call.  The read step performs the findOne
    of useControlNumber; the write step performs the canBeUsed check, the
    markAsUsed mutation of the snapshot and the save, all of which the source
    executes without re-reading the store. -/
def redeemStep (store : List ControlNumber) (ph : RedeemPhase) (code : String)
    (info : UsedBy) (now : Nat) : List ControlNumber × RedeemPhase :=
  match ph with
  | RedeemPhase.start =>
    match findOneActive store code with
    | none =>
      (store, RedeemPhase.finished (Except.error "Control number not found or not active"))
    | some cn => (store, RedeemPhase.readDone cn)
  | RedeemPhase.readDone cn =>
    if !(canBeUsed cn now) then
      (store, RedeemPhase.finished (Except.error "Control number cannot be used"))
    else
      let payRef := "CN_" ++ code ++ "_" ++ toString now
      match markAsUsed cn payRef info now with
      | Except.error e => (store, RedeemPhase.finished (Except.error e))
      | Except.ok cn2 =>
        (saveToStore store cn2,
         RedeemPhase.finished (Except.ok
           { controlNumber := cn2.controlNumber, paymentReference := payRef,
             amount := cn2.amount, currency := cn2.currency, status := "used" }))
  | RedeemPhase.finished r => (store, RedeemPhase.finished r)

/-- Two concurrent redeem calls against one shared store. -/
structure ConcState where
  store : List ControlNumber
  procA : RedeemPhase
  procB : RedeemPhase
deriving DecidableEq

/-- Runs an explicit interleaving: each schedule entry picks which of the two
    redeem calls performs its next step. -/
def runSchedule (code : String) (info : UsedBy) (now : Nat) :
    ConcState → List Bool → ConcState
  | st, [] => st
  | st, pickA :: rest =>
    let st2 :=
      if pickA then
        let r := redeemStep st.store st.procA code info now
        { st with store := r.1, procA := r.2 }
      else
        let r := redeemStep st.store st.procB code info now
        { st with store := r.1, procB := r.2 }
    runSchedule code info now st2 rest

/-- Whether a redeem call has finished successfully. -/
def redeemSucceeded : RedeemPhase → Bool
  | RedeemPhase.finished (Except.ok _) => true
  | _ => false

/- ===== Spec-side classification of validate (for comparison) ===== -/

/-- SPEC-SIDE definition, deliberately written from the words of the claim
    about validate classification rather than from the source, to be compared
    against validateControlNumber: not found, inactive, expired (expiresAt or
    validUntil in the past), exhausted, amount mismatch, in that order. -/
def specClassifyValidate (store : List ControlNumber) (code : String)
    (expectedAmount : Option Nat) (now : Nat) : String :=
  match store.find? (fun cn => decide (cn.controlNumber = code)) with
  | none => "not_found"
  | some cn =>
    if cn.status ≠ "active" then "inactive"
    else if cn.expiresAt < now ∨ cn.validUntil < now then "expired"
    else if cn.maxUses ≤ cn.currentUses then "exhausted"
    else
      match expectedAmount with
      | some a => if a ≠ cn.amount then "amount_mismatch" else "valid"
      | none => "valid"

/- ===== Concrete fixtures used by counterexamples and witnesses ===== -/

/-- A payment that already reached the terminal status completed. -/
def paymentCompletedC1 : Payment :=
  { orderId := "ORDER-1", amount := 5000, currency := "TZS",
    status := "completed", paymentStatus := "COMPLETED",
    statusHistory := [{ status := "completed", message := "", source := "webhook", timestamp := 1 }],
    externalReference := none, externalTransactionId := none,
    completedAt := some 1, failedAt := none }

/-- Webhook state around the completed payment, with no services. -/
def stateCompletedC1 : WebhookState :=
  { payment := paymentCompletedC1, paymentDbId := "PAY-1", services := [] }

/-- A FAILED webhook event arriving after completion. -/
def evFailed : WebhookEvent :=
  { paymentStatus := "FAILED", reference := some "REF-9", transactionId := some "TX-9" }

/-- A pending payment about to receive a PROCESSING webhook. -/
def paymentPendingC8 : Payment :=
  { orderId := "ORDER-8", amount := 900, currency := "TZS",
    status := "pending", paymentStatus := "PENDING",
    statusHistory := [], externalReference := none, externalTransactionId := none,
    completedAt := none, failedAt := none }

def statePendingC8 : WebhookState :=
  { payment := paymentPendingC8, paymentDbId := "PAY-8", services := [] }

def evProcessing : WebhookEvent :=
  { paymentStatus := "PROCESSING", reference := none, transactionId := none }

/-- A pending payment with one pending linked service and one already active
    service, for the completion trigger. -/
def pendingSvcC3 : Service :=
  { serviceId := "SVC-1", paymentId := some "PAY-3", status := "pending",
    duration := some 30, accessToken := none, accessGrantedAt := none,
    expiresAt := none, lastAccessedAt := none, accessCount := 0,
    deliveredAt := none, deliveryAttempts := 0, lastDeliveryAttempt := none,
    deliveryStatus := "not_started" }

def activeSvcC3 : Service :=
  { serviceId := "SVC-2", paymentId := some "PAY-3", status := "active",
    duration := none, accessToken := some "ACCESS-OLD", accessGrantedAt := some 1,
    expiresAt := none, lastAccessedAt := none, accessCount := 2,
    deliveredAt := some 1, deliveryAttempts := 1, lastDeliveryAttempt := some 1,
    deliveryStatus := "completed" }

def paymentPendingC3 : Payment :=
  { orderId := "ORDER-3", amount := 1000, currency := "TZS",
    status := "pending", paymentStatus := "PENDING",
    statusHistory := [], externalReference := none, externalTransactionId := none,
    completedAt := none, failedAt := none }

def statePendingC3 : WebhookState :=
  { payment := paymentPendingC3, paymentDbId := "PAY-3",
    services := [pendingSvcC3, activeSvcC3] }

def evCompleted : WebhookEvent :=
  { paymentStatus := "COMPLETED", reference := some "REF-3", transactionId := some "TX-3" }

/-- A reusable control number with two of three uses left. -/
def reusableCN : ControlNumber :=
  { controlNumber := "ZENO42", amount := 500, currency := "USD",
    status := "active", paymentReference := none, usedAt := none,
    usedBy := { name := none, phone := none, network := none },
    expiresAt := 1000, validUntil := 1000, isReusable := true,
    maxUses := 3, currentUses := 0 }

/-- A single-use active control number raced by two redeemers. -/
def singleUseCN : ControlNumber :=
  { controlNumber := "ZENO1", amount := 5000, currency := "USD",
    status := "active", paymentReference := none, usedAt := none,
    usedBy := { name := none, phone := none, network := none },
    expiresAt := 100, validUntil := 100, isReusable := false,
    maxUses := 1, currentUses := 0 }

/-- A stored control number whose status is used, hence inactive. -/
def usedCN : ControlNumber :=
  { controlNumber := "ZENO77", amount := 700, currency := "USD",
    status := "used", paymentReference := some "REF-7", usedAt := some 3,
    usedBy := { name := none, phone := none, network := none },
    expiresAt := 1000, validUntil := 1000, isReusable := false,
    maxUses := 1, currentUses := 1 }

/-- An active control number past validUntil but not past expiresAt. -/
def lateCN : ControlNumber :=
  { controlNumber := "ZENO88", amount := 800, currency := "USD",
    status := "active", paymentReference := none, usedAt := none,
    usedBy := { name := none, phone := none, network := none },
    expiresAt := 100, validUntil := 10, isReusable := false,
    maxUses := 1, currentUses := 0 }

/-- A suspended service linked to a completed payment. -/
def suspendedSvc : Service :=
  { serviceId := "SVC-7", paymentId := some "PAY-7", status := "suspended",
    duration := none, accessToken := some "ACCESS-7", accessGrantedAt := some 1,
    expiresAt := none, lastAccessedAt := none, accessCount := 0,
    deliveredAt := some 1, deliveryAttempts := 1, lastDeliveryAttempt := some 1,
    deliveryStatus := "completed" }

/-- Redeemer info with no fields supplied. -/
def emptyInfo : UsedBy := { name := none, phone := none, network := none }

/-- Drops the payment reference from a use result, to compare the remaining
    observable output of useControlNumber. -/
def scrubUseResult (r : Except String UseResult) : Except String UseResult :=
  r.map (fun u => { u with paymentReference := "" })

/-- Drops the recorded payment reference from every stored document, to
    compare the remaining store effect of useControlNumber. -/
def scrubStore (store : List ControlNumber) : List ControlNumber :=
  store.map (fun cn => { cn with paymentReference := none })

/- ===================== Theorems ===================== -/

/-- The webhook handler always leaves the stored payment status equal to the
    mapped provider status: either the statuses already agreed and nothing
    changes, or updateStatus installs the new one. -/
theorem handle_payment_status (st : WebhookState) (ev : WebhookEvent) (tok : String)
    (now : Nat) :
    (handleZenopayWebhook st ev tok now).payment.status =
      webhookStatusMap ev.paymentStatus := by
  unfold handleZenopayWebhook
  by_cases hc : st.payment.status ≠ webhookStatusMap ev.paymentStatus
  · rw [if_pos hc]
    show (updateStatus st.payment _ _ _ _).status = _
    unfold updateStatus
    rw [if_pos hc]
  · rw [if_neg hc]
    push_neg at hc
    exact hc

/-- A webhook event whose mapped status equals the stored status is a no-op. -/
theorem handle_same_status (st : WebhookState) (ev : WebhookEvent) (tok : String)
    (now : Nat) (h : st.payment.status = webhookStatusMap ev.paymentStatus) :
    handleZenopayWebhook st ev tok now = st := by
  unfold handleZenopayWebhook
  rw [if_neg]
  intro hne
  exact hne h

/-- When the mapped status differs and equals completed, the services after
    the webhook are exactly the delivered ones. -/
theorem handle_services_completed (st : WebhookState) (ev : WebhookEvent) (tok : String)
    (now : Nat) (hev : webhookStatusMap ev.paymentStatus = "completed")
    (hne : st.payment.status ≠ "completed") :
    (handleZenopayWebhook st ev tok now).services =
      deliverServices st.services st.paymentDbId tok now := by
  unfold handleZenopayWebhook
  rw [if_pos (by rw [hev]; exact hne)]
  simp [hev]

/-- Delivery leaves untouched every service that is not both linked to the
    payment and pending. -/
theorem deliverServices_skips (services : List Service) (dbId tok : String) (now : Nat)
    (s : Service) (hs : s ∈ services)
    (hcond : ¬ (s.paymentId = some dbId ∧ s.status = "pending")) :
    s ∈ deliverServices services dbId tok now := by
  unfold deliverServices
  refine List.mem_map.mpr ⟨s, hs, ?_⟩
  show (if s.paymentId = some dbId ∧ s.status = "pending"
        then deliverSingleService s tok now else s) = s
  rw [if_neg hcond]

/-- Delivery maps every linked pending service to its delivered form. -/
theorem deliverServices_delivers (services : List Service) (dbId tok : String) (now : Nat)
    (s : Service) (hs : s ∈ services)
    (h1 : s.paymentId = some dbId) (h2 : s.status = "pending") :
    deliverSingleService s tok now ∈ deliverServices services dbId tok now := by
  unfold deliverServices
  refine List.mem_map.mpr ⟨s, hs, ?_⟩
  show (if s.paymentId = some dbId ∧ s.status = "pending"
        then deliverSingleService s tok now else s) = deliverSingleService s tok now
  rw [if_pos ⟨h1, h2⟩]

/-- A delivered service is active. -/
theorem deliverSingleService_active (s : Service) (tok : String) (now : Nat) :
    (deliverSingleService s tok now).status = "active" := by
  unfold deliverSingleService activate
  cases s.duration with
  | none =>
    simp only []
    split <;> rfl
  | some d =>
    simp only []
    split <;> split <;> rfl

/-- C1 counterexample: the stored status of a payment that already reached the
    terminal status completed is changed by a further update carrying failed,
    both through Payment.updateStatus and through the webhook handler, so the
    update is applied rather than rejected. -/
theorem updateStatus_terminal_counterexample :
    (updateStatus paymentCompletedC1 "failed" "Webhook: FAILED" "webhook" 5).status ≠
      paymentCompletedC1.status ∧
    (handleZenopayWebhook stateCompletedC1 evFailed "TOK" 5).payment.status ≠
      stateCompletedC1.payment.status := by
  constructor <;> decide

/-- C1 amended: terminal statuses are not sticky.  For a payment in a terminal
    status, an update carrying a different status is applied: the stored
    status becomes the new status (shown both for Payment.updateStatus and
    for the webhook handler), and the transition is appended to the history;
    only an update carrying the same status leaves the record unchanged. -/
theorem no_terminal_stickiness (st : WebhookState) (ev : WebhookEvent)
    (tok msg src : String) (now : Nat)
    (_hterm : st.payment.status ∈ (["completed", "failed", "cancelled"] : List String))
    (hne : webhookStatusMap ev.paymentStatus ≠ st.payment.status) :
    (handleZenopayWebhook st ev tok now).payment.status =
      webhookStatusMap ev.paymentStatus ∧
    (updateStatus st.payment (webhookStatusMap ev.paymentStatus) msg src now).status =
      webhookStatusMap ev.paymentStatus ∧
    (updateStatus st.payment (webhookStatusMap ev.paymentStatus) msg src now).statusHistory =
      st.payment.statusHistory ++
        [{ status := webhookStatusMap ev.paymentStatus, message := msg, source := src,
           timestamp := now }] ∧
    ∀ ev2 : WebhookEvent, webhookStatusMap ev2.paymentStatus = st.payment.status →
      handleZenopayWebhook st ev2 tok now = st := by
  refine ⟨handle_payment_status st ev tok now, ?_, ?_, ?_⟩
  · unfold updateStatus
    rw [if_pos (Ne.symm hne)]
  · unfold updateStatus
    rw [if_pos (Ne.symm hne)]
  · intro ev2 h2
    exact handle_same_status st ev2 tok now h2.symm

/-- C1 amended witness at the completed payment and the FAILED event. -/
theorem no_terminal_stickiness_witness :
    (handleZenopayWebhook stateCompletedC1 evFailed "TOK" 5).payment.status = "failed" ∧
    (updateStatus stateCompletedC1.payment "failed" "m" "webhook" 5).status = "failed" :=
  have h := no_terminal_stickiness stateCompletedC1 evFailed "TOK" "m" "webhook" 5
    (by decide) (by decide)
  ⟨h.1, h.2.1⟩

/-- C2: the interleaving read-A, read-B, write-A, write-B of two concurrent
    redeem calls of the single-use active code lets both calls succeed, and
    the stored document afterwards records only one use (a lost update).  The
    source performs a findOne followed by a separate save instead of one
    conditional write, so exactly-once redemption fails. -/
theorem concurrent_redeem_double_success :
    redeemSucceeded (runSchedule "ZENO1" emptyInfo 0
      { store := [singleUseCN], procA := RedeemPhase.start, procB := RedeemPhase.start }
      [true, false, true, false]).procA = true ∧
    redeemSucceeded (runSchedule "ZENO1" emptyInfo 0
      { store := [singleUseCN], procA := RedeemPhase.start, procB := RedeemPhase.start }
      [true, false, true, false]).procB = true ∧
    (runSchedule "ZENO1" emptyInfo 0
      { store := [singleUseCN], procA := RedeemPhase.start, procB := RedeemPhase.start }
      [true, false, true, false]).store.map ControlNumber.currentUses = [1] ∧
    singleUseCN.maxUses = 1 := by
  refine ⟨by decide, by decide, by decide, by decide⟩

/-- C4: evaluating markAsUsed on an active reusable control number with
    maxUses three and no prior use: the call succeeds, increments currentUses
    to one and records usedAt and the redeemer info, but the resulting status
    is used even though the code is reusable and one is still below maxUses —
    the unconditional status assignment before the reusability check defeats
    the isReusable machinery. -/
theorem markAsUsed_deactivates_reusable :
    (markAsUsed reusableCN "REF1" emptyInfo 10).toOption.map ControlNumber.status =
      some "used" ∧
    (markAsUsed reusableCN "REF1" emptyInfo 10).toOption.map ControlNumber.currentUses =
      some 1 ∧
    (markAsUsed reusableCN "REF1" emptyInfo 10).toOption.map ControlNumber.usedAt =
      some (some 10) ∧
    reusableCN.isReusable = true ∧ 1 < reusableCN.maxUses := by
  refine ⟨by decide, by decide, by decide, by decide, by decide⟩

/-- C8: the webhook status map sends PROCESSING to the internal status
    processing and the handler installs it on a pending payment, but
    processing is absent from the Payment schema status enum, so the document
    the handler tries to save fails schema validation: processing is not a
    storable intermediate state. -/
theorem processing_status_unrepresentable :
    webhookStatusMap "PROCESSING" = "processing" ∧
    paymentStatusEnumVals.contains "processing" = false ∧
    (handleZenopayWebhook statePendingC8 evProcessing "TOK" 3).payment.status =
      "processing" ∧
    paymentSchemaAllows (handleZenopayWebhook statePendingC8 evProcessing "TOK" 3).payment =
      false := by
  refine ⟨by decide, by decide, by decide, by decide⟩

/-- C3: applying a COMPLETED webhook twice to the same payment triggers the
    service-activation effects exactly once.  The second application, whose
    mapped status equals the then-current stored status, is an idempotent
    no-op on the whole state; non-pending or unlinked services survive the
    first application untouched; and when the payment was not yet completed,
    every linked pending service is activated by the first application. -/
theorem completion_trigger_idempotent (st : WebhookState) (ev ev2 : WebhookEvent)
    (tok tok2 : String) (now now2 : Nat)
    (h : ev.paymentStatus = "COMPLETED") (h2 : ev2.paymentStatus = "COMPLETED") :
    handleZenopayWebhook (handleZenopayWebhook st ev tok now) ev2 tok2 now2 =
      handleZenopayWebhook st ev tok now ∧
    (∀ s ∈ st.services, ¬ (s.paymentId = some st.paymentDbId ∧ s.status = "pending") →
      s ∈ (handleZenopayWebhook st ev tok now).services) ∧
    (st.payment.status ≠ "completed" →
      ∀ s ∈ st.services, s.paymentId = some st.paymentDbId → s.status = "pending" →
        deliverSingleService s tok now ∈ (handleZenopayWebhook st ev tok now).services ∧
        (deliverSingleService s tok now).status = "active") := by
  have hev : webhookStatusMap ev.paymentStatus = "completed" := by rw [h]; rfl
  have hev2 : webhookStatusMap ev2.paymentStatus = "completed" := by rw [h2]; rfl
  refine ⟨?_, ?_, ?_⟩
  · apply handle_same_status
    rw [handle_payment_status, hev, hev2]
  · intro s hs hcond
    by_cases hp : st.payment.status = "completed"
    · rw [handle_same_status st ev tok now (by rw [hev]; exact hp)]
      exact hs
    · rw [handle_services_completed st ev tok now hev hp]
      exact deliverServices_skips st.services st.paymentDbId tok now s hs hcond
  · intro hp s hs h1 hsp
    refine ⟨?_, deliverSingleService_active s tok now⟩
    rw [handle_services_completed st ev tok now hev hp]
    exact deliverServices_delivers st.services st.paymentDbId tok now s hs h1 hsp

/-- C3 witness: the pending payment with one pending and one active linked
    service, receiving COMPLETED twice. -/
theorem completion_trigger_idempotent_witness :
    handleZenopayWebhook (handleZenopayWebhook statePendingC3 evCompleted "T1" 1)
        evCompleted "T2" 2 =
      handleZenopayWebhook statePendingC3 evCompleted "T1" 1 ∧
    deliverSingleService pendingSvcC3 "T1" 1 ∈
      (handleZenopayWebhook statePendingC3 evCompleted "T1" 1).services ∧
    (deliverSingleService pendingSvcC3 "T1" 1).status = "active" ∧
    activeSvcC3 ∈ (handleZenopayWebhook statePendingC3 evCompleted "T1" 1).services :=
  have hmain := completion_trigger_idempotent statePendingC3 evCompleted evCompleted
    "T1" "T2" 1 2 rfl rfl
  have hdeliver := hmain.2.2 (by decide) pendingSvcC3 (by decide) (by decide) (by decide)
  have hskip := hmain.2.1 activeSvcC3 (by decide) (by decide)
  ⟨hmain.1, hdeliver.1, hdeliver.2, hskip⟩

/-- If every candidate below the budget collides, the generation loop returns
    none whatever the starting attempt count. -/
theorem genLoop_none_of_all_collide (e : String → Bool) (cand : Nat → String)
    (hall : ∀ i, i < maxAttempts → e (cand i) = true) :
    ∀ fuel attempts, genLoop e cand attempts fuel = none := by
  intro fuel
  induction fuel with
  | zero => intro attempts; rfl
  | succ n ih =>
    intro attempts
    show (if maxAttempts ≤ attempts + 1 then none
          else if e (cand attempts) then genLoop e cand (attempts + 1) n
          else some (cand attempts)) = none
    by_cases hle : maxAttempts ≤ attempts + 1
    · rw [if_pos hle]
    · rw [if_neg hle, hall attempts (by omega)]
      simp only [if_true]
      exact ih (attempts + 1)

/-- Any code the generation loop returns does not collide with the store. -/
theorem genLoop_fresh (e : String → Bool) (cand : Nat → String) :
    ∀ fuel attempts c, genLoop e cand attempts fuel = some c → e c = false := by
  intro fuel
  induction fuel with
  | zero => intro attempts c hsome; cases hsome
  | succ n ih =>
    intro attempts c hsome
    have hsome2 : (if maxAttempts ≤ attempts + 1 then none
          else if e (cand attempts) then genLoop e cand (attempts + 1) n
          else some (cand attempts)) = some c := hsome
    by_cases hle : maxAttempts ≤ attempts + 1
    · rw [if_pos hle] at hsome2; cases hsome2
    · rw [if_neg hle] at hsome2
      by_cases hcoll : e (cand attempts) = true
      · rw [hcoll] at hsome2
        simp only [if_true] at hsome2
        exact ih (attempts + 1) c hsome2
      · simp only [Bool.not_eq_true] at hcoll
        rw [hcoll] at hsome2
        simp only [Bool.false_eq_true, if_false, Option.some.injEq] at hsome2
        rw [← hsome2]
        exact hcoll

/-- The generation loop inspects only candidates with index below the
    budget: two candidate streams agreeing there produce the same result. -/
theorem genLoop_bounded_window (e : String → Bool) (cand cand2 : Nat → String)
    (hagr : ∀ i, i < maxAttempts → cand i = cand2 i) :
    ∀ fuel attempts, genLoop e cand attempts fuel = genLoop e cand2 attempts fuel := by
  intro fuel
  induction fuel with
  | zero => intro attempts; rfl
  | succ n ih =>
    intro attempts
    show (if maxAttempts ≤ attempts + 1 then none
          else if e (cand attempts) then genLoop e cand (attempts + 1) n
          else some (cand attempts)) =
         (if maxAttempts ≤ attempts + 1 then none
          else if e (cand2 attempts) then genLoop e cand2 (attempts + 1) n
          else some (cand2 attempts))
    by_cases hle : maxAttempts ≤ attempts + 1
    · rw [if_pos hle, if_pos hle]
    · rw [if_neg hle, if_neg hle, ← hagr attempts (by omega)]
      by_cases hcoll : e (cand attempts) = true
      · rw [hcoll]
        simp only [if_true]
        exact ih (attempts + 1)
      · simp only [Bool.not_eq_true] at hcoll
        rw [hcoll]
        simp only [Bool.false_eq_true, if_false]

/-- C5: control-number generation retries on collision within the explicit
    budget maxAttempts and no further: the result depends only on the first
    maxAttempts candidates; if every candidate in the budget collides the
    call fails with the typed failure (none, the 500 response of the source)
    instead of looping on; and a returned code never collides with the
    store, so no duplicate is persisted. -/
theorem generation_bounded_exhaustion (e : String → Bool) (cand cand2 : Nat → String) :
    ((∀ i, i < maxAttempts → e (cand i) = true) →
      generateControlNumber e cand = none) ∧
    (∀ c, generateControlNumber e cand = some c → e c = false) ∧
    ((∀ i, i < maxAttempts → cand i = cand2 i) →
      generateControlNumber e cand = generateControlNumber e cand2) := by
  refine ⟨?_, ?_, ?_⟩
  · intro hall
    exact genLoop_none_of_all_collide e cand hall maxAttempts 0
  · intro c hsome
    exact genLoop_fresh e cand maxAttempts 0 c hsome
  · intro hagr
    exact genLoop_bounded_window e cand cand2 hagr maxAttempts 0

/-- C5 witness: with every candidate colliding the generator fails, and on a
    store without the candidate the generated code is fresh. -/
theorem generation_bounded_exhaustion_witness :
    generateControlNumber (fun _ => true) (fun _ => "ZENO0") = none ∧
    (fun c => c == "ZENO9") "ZENO0" = false :=
  have hnone := (generation_bounded_exhaustion (fun _ => true)
    (fun _ => "ZENO0") (fun _ => "ZENO0")).1 (fun _ _ => rfl)
  have hfresh := (generation_bounded_exhaustion (fun c => c == "ZENO9")
    (fun _ => "ZENO0") (fun _ => "ZENO0")).2.1 "ZENO0" (by decide)
  ⟨hnone, hfresh⟩

/-- C9: both provider status tables are total into the canonical status set,
    and every status string absent from the table keys maps to pending, so
    no notification is dropped and no status outside the canonical set is
    produced. -/
theorem mapStatus_canonical_default (s : String) :
    webhookStatusMap s ∈ canonicalStatuses ∧
    mapStatus s ∈ canonicalStatuses ∧
    (s ∉ webhookStatusKeys → webhookStatusMap s = "pending") ∧
    (s ∉ mapStatusKeys → mapStatus s = "pending") := by
  refine ⟨?_, ?_, ?_, ?_⟩
  · unfold webhookStatusMap
    repeat' split
    all_goals simp [canonicalStatuses]
  · unfold mapStatus
    repeat' split
    all_goals simp [canonicalStatuses]
  · intro hks
    unfold webhookStatusMap
    simp only [webhookStatusKeys, List.mem_cons, List.not_mem_nil, or_false, not_or] at hks
    rw [if_neg hks.1, if_neg hks.2.1, if_neg hks.2.2.1, if_neg hks.2.2.2.1,
        if_neg hks.2.2.2.2]
  · intro hks
    unfold mapStatus
    simp only [mapStatusKeys, List.mem_cons, List.not_mem_nil, or_false, not_or] at hks
    rw [if_neg hks.1, if_neg hks.2.1, if_neg hks.2.2.1, if_neg hks.2.2.2.1,
        if_neg hks.2.2.2.2.1, if_neg hks.2.2.2.2.2.1, if_neg hks.2.2.2.2.2.2.1,
        if_neg hks.2.2.2.2.2.2.2.1, if_neg hks.2.2.2.2.2.2.2.2.1,
        if_neg hks.2.2.2.2.2.2.2.2.2.1, if_neg hks.2.2.2.2.2.2.2.2.2.2]

/-- C9 witness at a provider status outside both tables. -/
theorem mapStatus_canonical_default_witness :
    webhookStatusMap "AUTHORIZED" = "pending" ∧ mapStatus "AUTHORIZED" = "pending" :=
  have h := mapStatus_canonical_default "AUTHORIZED"
  ⟨h.2.2.1 (by simp [webhookStatusKeys]), h.2.2.2 (by simp [mapStatusKeys])⟩

/-- C6 counterexample: the claimed classification is not the one of the code.
    A stored code whose status is used is classified inactive by the claim,
    but the source query filters on active status, so the code answers with
    the not-found message, indistinguishable from an absent code; and a code
    past validUntil but not past expiresAt is classified expired by the claim
    while the source answers cannot-be-used. -/
theorem validate_classification_counterexample :
    specClassifyValidate [usedCN] "ZENO77" none 0 = "inactive" ∧
    validateControlNumber [usedCN] "ZENO77" 0 =
      ValidationOutcome.invalid "Control number not found or expired" ∧
    validateControlNumber [usedCN] "ZENO77" 0 = validateControlNumber [] "ZENO77" 0 ∧
    specClassifyValidate [lateCN] "ZENO88" none 50 = "expired" ∧
    validateControlNumber [lateCN] "ZENO88" 50 =
      ValidationOutcome.invalid "Control number cannot be used" := by
  refine ⟨by decide, by decide, by decide, by decide, by decide⟩

/-- C6 amended: validateControlNumber is read-only, returning a result and no
    store mutation, and classifies as follows: an empty code is invalid as
    required; a code with no stored active document under its uppercased form
    (covering both absent and non-active documents) is invalid with the
    not-found-or-expired message; a found document past expiresAt is invalid
    as expired; one past validUntil or with exhausted uses is invalid as
    cannot-be-used; otherwise the result is valid.  Any document the query
    returns has status active, and the expected-amount comparison exists only
    in the controller, which rejects exactly when a supplied amount differs
    from the stored one. -/
theorem validate_classification_amended (store : List ControlNumber) (code : String)
    (now : Nat) :
    (validateControlNumber store code now =
      if code = "" then ValidationOutcome.invalid "Control number is required"
      else
        match findOneActive store code with
        | none => ValidationOutcome.invalid "Control number not found or expired"
        | some cn =>
          if cn.expiresAt < now then ValidationOutcome.invalid "Control number has expired"
          else if cn.validUntil < now ∨ cn.maxUses ≤ cn.currentUses then
            ValidationOutcome.invalid "Control number cannot be used"
          else ValidationOutcome.valid cn) ∧
    (∀ cn, findOneActive store code = some cn → cn.status = "active") ∧
    (∀ cn : ControlNumber, controllerAmountMismatch none cn = false ∧
      ∀ a : Nat, controllerAmountMismatch (some a) cn = decide (a ≠ cn.amount)) := by
  have hact : ∀ cn, findOneActive store code = some cn → cn.status = "active" := by
    intro cn hfind
    unfold findOneActive at hfind
    have hp := List.find?_some hfind
    exact (of_decide_eq_true hp).2
  refine ⟨?_, hact, ?_⟩
  · unfold validateControlNumber
    by_cases hcode : code = ""
    · rw [if_pos hcode, if_pos hcode]
    · rw [if_neg hcode, if_neg hcode]
      cases hfind : findOneActive store code with
      | none => rfl
      | some cn =>
        have hst : cn.status = "active" := hact cn hfind
        by_cases hexp : cn.expiresAt < now
        · simp [isExpired, hexp]
        · by_cases hvu : cn.validUntil < now
          · have hnow : ¬ now ≤ cn.validUntil := by omega
            simp [isExpired, hexp, canBeUsed, isValid, hst, hnow, hvu]
          · by_cases hmx : cn.maxUses ≤ cn.currentUses
            · have hcu : ¬ cn.currentUses < cn.maxUses := by omega
              simp [isExpired, hexp, canBeUsed, isValid, hst, hvu, hmx, hcu,
                    show now ≤ cn.validUntil from by omega]
            · have h1 : now ≤ cn.validUntil := by omega
              have h2 : cn.currentUses < cn.maxUses := by omega
              simp [isExpired, hexp, canBeUsed, isValid, hst, hvu, hmx, h1, h2]
  · intro cn
    exact ⟨rfl, fun a => rfl⟩

/-- C6 amended witness at the still-active code past validUntil. -/
theorem validate_classification_amended_witness :
    validateControlNumber [lateCN] "ZENO88" 50 =
      ValidationOutcome.invalid "Control number cannot be used" ∧
    lateCN.status = "active" := by
  have h := validate_classification_amended [lateCN] "ZENO88" 50
  refine ⟨?_, h.2.1 lateCN (by decide)⟩
  rw [h.1]
  decide

/-- Activation always leaves the service status active. -/
theorem activate_status (s : Service) (now : Nat) : (activate s now).status = "active" := by
  unfold activate
  cases s.duration with
  | none => rfl
  | some d =>
    simp only []
    split <;> rfl

/-- C7 counterexample: an access check on a suspended service whose linked
    payment is completed is granted, and it rewrites the stored status to
    active, although the accessibility predicate of the model rejects the
    service; so the check neither uses the predicate nor leaves the service
    unchanged. -/
theorem service_access_counterexample :
    (checkServiceAccess (some suspendedSvc) (some "completed") 7).1 =
      AccessResult.granted ∧
    ((checkServiceAccess (some suspendedSvc) (some "completed") 7).2.map Service.status) =
      some "active" ∧
    suspendedSvc.status = "suspended" ∧
    isAccessible suspendedSvc 7 = false := by
  refine ⟨by decide, by decide, by decide, by decide⟩

/-- C7 amended: the accessibility predicate isAccessible holds exactly when
    the status is active and any expiry lies in the future, but the access
    check does not consult it: checkServiceAccess denies, leaving the service
    unchanged, exactly when the linked payment status is not completed, and
    otherwise grants access and leaves the stored status active, activating
    the service if it was in any non-active status, including expired,
    cancelled and suspended. -/
theorem service_access_amended (s : Service) (payStatus : Option String) (now : Nat) :
    (isAccessible s now = true ↔
      (s.status = "active" ∧ (s.expiresAt = none ∨ ∃ e, s.expiresAt = some e ∧ now ≤ e))) ∧
    (payStatus ≠ some "completed" →
      checkServiceAccess (some s) payStatus now = (AccessResult.paymentRequired, some s)) ∧
    (payStatus = some "completed" →
      (checkServiceAccess (some s) payStatus now).1 = AccessResult.granted ∧
      ((checkServiceAccess (some s) payStatus now).2.map Service.status = some "active")) := by
  refine ⟨?_, ?_, ?_⟩
  · unfold isAccessible
    by_cases hst : s.status = "active"
    · rw [if_neg (show ¬s.status ≠ "active" from fun hc => hc hst)]
      cases he : s.expiresAt with
      | none =>
        show true = true ↔
          (s.status = "active" ∧ ((none : Option Nat) = none ∨
            ∃ e2, (none : Option Nat) = some e2 ∧ now ≤ e2))
        constructor
        · intro _
          exact ⟨hst, Or.inl rfl⟩
        · intro _
          rfl
      | some e =>
        show (if e < now then false else true) = true ↔
          (s.status = "active" ∧ ((some e : Option Nat) = none ∨
            ∃ e2, (some e : Option Nat) = some e2 ∧ now ≤ e2))
        by_cases hlt : e < now
        · rw [if_pos hlt]
          constructor
          · intro hfalse
            cases hfalse
          · rintro ⟨_, hnone | ⟨e2, he2, hle⟩⟩
            · cases hnone
            · rw [Option.some.injEq] at he2
              exact absurd hle (by omega)
        · rw [if_neg hlt]
          constructor
          · intro _
            exact ⟨hst, Or.inr ⟨e, rfl, by omega⟩⟩
          · intro _
            rfl
    · rw [if_pos (show s.status ≠ "active" from hst)]
      constructor
      · intro hfalse
        cases hfalse
      · rintro ⟨hs2, _⟩
        exact absurd hs2 hst
  · intro hne
    show (if payStatus ≠ some "completed" then (AccessResult.paymentRequired, some s)
          else (AccessResult.granted,
            some (recordAccess (if s.status ≠ "active" then activate s now else s) now))) =
        (AccessResult.paymentRequired, some s)
    rw [if_pos hne]
  · intro hpe
    subst hpe
    have hni : ¬ ((some "completed" : Option String) ≠ some "completed") := fun hc => hc rfl
    constructor
    · show (if (some "completed" : Option String) ≠ some "completed" then
              (AccessResult.paymentRequired, some s)
            else (AccessResult.granted,
              some (recordAccess (if s.status ≠ "active" then activate s now else s) now))).1 =
          AccessResult.granted
      rw [if_neg hni]
    · show Option.map Service.status
          (if (some "completed" : Option String) ≠ some "completed" then
            (AccessResult.paymentRequired, some s)
           else (AccessResult.granted,
             some (recordAccess (if s.status ≠ "active" then activate s now else s) now))).2 =
          some "active"
      rw [if_neg hni]
      show some (recordAccess (if s.status ≠ "active" then activate s now else s) now).status =
        some "active"
      by_cases hst : s.status ≠ "active"
      · rw [if_pos hst]
        show some (activate s now).status = some "active"
        rw [activate_status]
      · rw [if_neg hst]
        push_neg at hst
        show some s.status = some "active"
        rw [hst]

/-- C7 amended witness: the suspended service is denied without change under
    a pending payment and granted under a completed one. -/
theorem service_access_amended_witness :
    checkServiceAccess (some suspendedSvc) (some "pending") 7 =
      (AccessResult.paymentRequired, some suspendedSvc) ∧
    (checkServiceAccess (some suspendedSvc) (some "completed") 7).1 =
      AccessResult.granted := by
  have h1 := service_access_amended suspendedSvc (some "pending") 7
  have h2 := service_access_amended suspendedSvc (some "completed") 7
  exact ⟨h1.2.1 (by decide), (h2.2.2 rfl).1⟩

/-- A valid codepoint packed by Char.ofNat unpacks to itself. -/
theorem charToNat_ofNat_lt (n : Nat) (h : n < 55296) : (Char.ofNat n).toNat = n := by
  have hv : n.isValidChar := Or.inl h
  unfold Char.ofNat
  rw [dif_pos hv]
  rfl

/-- Uppercasing basic latin characters is idempotent. -/
theorem toUpper_idempotent (c : Char) : Char.toUpper (Char.toUpper c) = Char.toUpper c := by
  unfold Char.toUpper
  by_cases h : c.toNat ≥ 97 ∧ c.toNat ≤ 122
  · rw [if_pos h]
    have hto : (Char.ofNat (c.toNat - 32)).toNat = c.toNat - 32 :=
      charToNat_ofNat_lt (c.toNat - 32) (by omega)
    rw [if_neg]
    rw [hto]
    omega
  · rw [if_neg h, if_neg h]

/-- Uppercasing a code twice equals uppercasing it once. -/
theorem jsToUpper_idempotent (s : String) : jsToUpper (jsToUpper s) = jsToUpper s := by
  unfold jsToUpper
  show String.mk ((s.data.map Char.toUpper).map Char.toUpper) =
    String.mk (s.data.map Char.toUpper)
  rw [List.map_map]
  congr 1
  apply List.map_congr_left
  intro c _
  show Char.toUpper (Char.toUpper c) = Char.toUpper c
  exact toUpper_idempotent c

/-- Uppercasing preserves emptiness of the code. -/
theorem jsToUpper_eq_empty_iff (s : String) : jsToUpper s = "" ↔ s = "" := by
  constructor
  · intro h
    have hd := congrArg String.data h
    have hmap : s.data.map Char.toUpper = [] := hd
    have hnil : s.data = [] := List.map_eq_nil_iff.mp hmap
    cases s with
    | mk l =>
      cases hnil
      rfl
  · intro h
    subst h
    rfl

/-- The store query of validate and use is insensitive to pre-uppercasing the
    input code, because it uppercases the code itself. -/
theorem findOneActive_upper (store : List ControlNumber) (code : String) :
    findOneActive store (jsToUpper code) = findOneActive store code := by
  unfold findOneActive
  rw [jsToUpper_idempotent]

/-- The payment reference string is the only part of the markAsUsed result
    that depends on the reference argument. -/
theorem markAsUsed_scrub (cn : ControlNumber) (info : UsedBy) (now : Nat) (r1 r2 : String) :
    (markAsUsed cn r1 info now).map (fun c => { c with paymentReference := none }) =
    (markAsUsed cn r2 info now).map (fun c => { c with paymentReference := none }) := by
  unfold markAsUsed
  by_cases h : cn.status ≠ "active"
  · rw [if_pos h, if_pos h]
  · rw [if_neg h, if_neg h]
    simp only [Except.map]
    split_ifs <;> rfl

/-- Replacing a document and then scrubbing references commutes with the
    identity of the replaced document up to its reference field. -/
theorem scrub_save (store : List ControlNumber) (a b : ControlNumber)
    (hcn : a.controlNumber = b.controlNumber)
    (hs : ({ a with paymentReference := none } : ControlNumber) =
          { b with paymentReference := none }) :
    scrubStore (saveToStore store a) = scrubStore (saveToStore store b) := by
  unfold scrubStore saveToStore
  rw [List.map_map, List.map_map]
  apply List.map_congr_left
  intro r _
  show (fun cn => ({ cn with paymentReference := none } : ControlNumber))
        (if r.controlNumber = a.controlNumber then a else r) =
       (fun cn => ({ cn with paymentReference := none } : ControlNumber))
        (if r.controlNumber = b.controlNumber then b else r)
  by_cases h : r.controlNumber = a.controlNumber
  · rw [if_pos h, if_pos (h.trans hcn)]
    exact hs
  · rw [if_neg h, if_neg (fun hb => h (hb.trans hcn.symm))]

/-- C10 counterexample: on the store holding the active code ZENO1, redeeming
    through the lowercase form zeno1 and through ZENO1 return different
    results — the returned payment reference embeds the raw input string —
    so the two calls do not behave identically. -/
theorem use_code_case_counterexample :
    (useControlNumber [singleUseCN] "zeno1" emptyInfo 0).1 ≠
      (useControlNumber [singleUseCN] "ZENO1" emptyInfo 0).1 := by
  decide

/-- C10 amended: the store lookup is case-insensitive because the input code
    is uppercased before the query: validateControlNumber gives literally the
    same answer on a code and on its uppercased form, and useControlNumber
    succeeds or fails identically with the same store effect, except that the
    generated payment reference string embeds the raw input code and so
    differs in case, both in the returned result and in the stored
    document. -/
theorem lookup_case_insensitive_amended (store : List ControlNumber) (code : String)
    (info : UsedBy) (now : Nat) :
    validateControlNumber store (jsToUpper code) now =
      validateControlNumber store code now ∧
    scrubUseResult (useControlNumber store (jsToUpper code) info now).1 =
      scrubUseResult (useControlNumber store code info now).1 ∧
    scrubStore (useControlNumber store (jsToUpper code) info now).2 =
      scrubStore (useControlNumber store code info now).2 := by
  have hfind := findOneActive_upper store code
  have huse : ∀ cn, findOneActive store code = some cn →
      scrubUseResult (useControlNumber store (jsToUpper code) info now).1 =
        scrubUseResult (useControlNumber store code info now).1 ∧
      scrubStore (useControlNumber store (jsToUpper code) info now).2 =
        scrubStore (useControlNumber store code info now).2 := by
    intro cn hf
    simp only [useControlNumber, hfind, hf]
    by_cases hcb : (!(canBeUsed cn now)) = true
    · rw [if_pos hcb, if_pos hcb]
      exact ⟨rfl, rfl⟩
    · rw [if_neg hcb, if_neg hcb]
      have hA := markAsUsed_scrub cn info now
        ("CN_" ++ jsToUpper code ++ "_" ++ toString now)
        ("CN_" ++ code ++ "_" ++ toString now)
      cases hm1 : markAsUsed cn ("CN_" ++ jsToUpper code ++ "_" ++ toString now) info now with
      | error e1 =>
        cases hm2 : markAsUsed cn ("CN_" ++ code ++ "_" ++ toString now) info now with
        | error e2 =>
          rw [hm1, hm2] at hA
          have he : e1 = e2 := by
            simpa [Except.map] using hA
          subst he
          exact ⟨rfl, rfl⟩
        | ok cn2b =>
          rw [hm1, hm2] at hA
          simp [Except.map] at hA
      | ok cn2a =>
        cases hm2 : markAsUsed cn ("CN_" ++ code ++ "_" ++ toString now) info now with
        | error e2 =>
          rw [hm1, hm2] at hA
          simp [Except.map] at hA
        | ok cn2b =>
          rw [hm1, hm2] at hA
          have hsc : ({ cn2a with paymentReference := none } : ControlNumber) =
              { cn2b with paymentReference := none } := by
            simpa [Except.map] using hA
          have hcopy := hsc
          injection hcopy with i1 i2 i3 i4 i5 i6 i7 i8 i9 i10 i11 i12
          constructor
          · simp only [scrubUseResult, Except.map]
            rw [i1, i2, i3]
          · exact scrub_save store cn2a cn2b i1 hsc
  refine ⟨?_, ?_, ?_⟩
  · unfold validateControlNumber
    by_cases hcode : code = ""
    · subst hcode
      rfl
    · have hupper : jsToUpper code ≠ "" :=
        fun hc => hcode ((jsToUpper_eq_empty_iff code).mp hc)
      rw [if_neg hupper, if_neg hcode, hfind]
  · cases hf : findOneActive store code with
    | none => simp only [useControlNumber, hfind, hf]
    | some cn => exact (huse cn hf).1
  · cases hf : findOneActive store code with
    | none => simp only [useControlNumber, hfind, hf]
    | some cn => exact (huse cn hf).2

/-- C10 amended witness on the ZENO1 store with the lowercase input. -/
theorem lookup_case_insensitive_amended_witness :
    validateControlNumber [singleUseCN] (jsToUpper "zeno1") 0 =
      validateControlNumber [singleUseCN] "zeno1" 0 ∧
    scrubStore (useControlNumber [singleUseCN] (jsToUpper "zeno1") emptyInfo 0).2 =
      scrubStore (useControlNumber [singleUseCN] "zeno1" emptyInfo 0).2 :=
  have h := lookup_case_insensitive_amended [singleUseCN] "zeno1" emptyInfo 0
  ⟨h.1, h.2.2⟩

end Zenopay
